import Mathlib

/-
Verification of the FinSight portfolio aggregation core.

Shallow embedding conventions:
- Go float64 money/quantity fields are modeled as exact rationals (ℚ);
  the spec's floating-point epsilon bounds hold a fortiori.
- The one place the code can divide by zero (the merged DayChangePercent)
  is modeled with `goDiv`, which returns `none` for the non-finite float
  (±Inf/NaN) that Go produces on division by zero; a holding's
  `dayChangePercent` is therefore an `Option ℚ` (`none` = non-finite).
- `time.Time` values and `time.Duration`s are modeled as integers
  (nanoseconds, matching Go's representation); `time.Now()` becomes an
  explicit `now` parameter.
- Go maps keyed by strings are modeled as association lists in first
  insertion order; the program's claims are insensitive to Go's
  unspecified map iteration order.
- External effects (broker SDK calls, the SQL store) are modeled as
  explicit `Except`/state parameters.
-/

section AssocList

variable {κ α : Type} [DecidableEq κ]

/-- Lookup in an association list (models reading a Go map / keyed store). -/
def getAssoc : List (κ × α) → κ → Option α
  | [], _ => none
  | (k', v) :: rest, k => if k' = k then some v else getAssoc rest k

/-- Insert-or-replace in an association list (models writing a Go map / keyed store). -/
def setAssoc : List (κ × α) → κ → α → List (κ × α)
  | [], k, v => [(k, v)]
  | (k', v') :: rest, k, v =>
      if k' = k then (k', v) :: rest else (k', v') :: setAssoc rest k v

end AssocList

/-- Go float64 division where the divisor may be zero: `none` models the
non-finite value (±Inf or NaN) Go produces when dividing by zero. -/
def goDiv (a b : ℚ) : Option ℚ :=
  if b = 0 then none else some (a / b)

/-- models.Platform constant PlatformZerodha (internal/models/credentials.go). -/
def PlatformZerodha : String := "zerodha"

/-- models.Platform for ICICI Direct. The constant `PlatformICICIDirect` is
referenced by the code but its defining models-file revision is not in the
snapshot; no claim depends on its concrete string value. -/
def PlatformICICIDirect : String := "icici_direct"

/-- models.Holding (internal/models/credentials.go). `type'` is the Go field
`Type` (a holding-type string); `dayChangePercent` is `Option ℚ` per the
float convention above; `lastUpdated` is a nanosecond timestamp. -/
structure Holding where
  itemName : String
  isin : String
  quantity : ℚ
  averagePrice : ℚ
  lastTradedPrice : ℚ
  currentValue : ℚ
  dayChange : ℚ
  dayChangePercent : Option ℚ
  totalPnL : ℚ
  platform : String
  type' : String
  lastUpdated : ℤ
deriving DecidableEq, Repr

/-- models.Portfolio (internal/models/credentials.go). -/
structure Portfolio where
  holdings : List Holding
  totalValue : ℚ
  totalDayChange : ℚ
  totalDayChangePct : ℚ
  totalPnL : ℚ
  lastUpdated : ℤ
deriving DecidableEq, Repr

/-- Sum of a rational-valued field over a list of holdings. -/
def sumBy (f : Holding → ℚ) (hs : List Holding) : ℚ :=
  (hs.map f).sum

namespace Svc

/-- The dedup key of internal/portfolio/interface.go's mergeHoldings:
ISIN when non-empty, else `platform + ":" + name`. -/
def holdingKey (h : Holding) : String :=
  if h.isin = "" then h.platform ++ ":" ++ h.itemName else h.isin

/-- mergeTwoHoldings (internal/portfolio/interface.go:280): keep the more
recently updated of the two records wholesale. -/
def mergeTwoHoldings (a b : Holding) : Holding :=
  if b.lastUpdated < a.lastUpdated then a else b

/-- One step of mergeHoldings' map insertion: merge into the existing entry
for the key, or append a new entry. -/
def insertHolding : List (String × Holding) → Holding → List (String × Holding)
  | [], h => [(holdingKey h, h)]
  | (k, e) :: rest, h =>
      if k = holdingKey h then (k, mergeTwoHoldings e h) :: rest
      else (k, e) :: insertHolding rest h

/-- mergeHoldings (internal/portfolio/interface.go:250): deduplicate the
concatenated input lists through a map keyed by `holdingKey`. -/
def mergeHoldings (holdingsList : List (List Holding)) : List Holding :=
  ((holdingsList.flatten).foldl insertHolding []).map Prod.snd

end Svc

namespace UserSvc

/-- The grouping key of the user-service mergeHoldings (config.go concatenation,
package portfolio): ISIN when non-empty, else `name + "_" + platform`. -/
def groupKey (h : Holding) : String :=
  if h.isin ≠ "" then h.isin else h.itemName ++ "_" ++ h.platform

/-- One step of grouping holdings by `groupKey`, appending to the existing
group or opening a new one (first-insertion order stands in for Go's map). -/
def addToGroups : List (String × List Holding) → Holding → List (String × List Holding)
  | [], h => [(groupKey h, [h])]
  | (k, g) :: rest, h =>
      if k = groupKey h then (k, g ++ [h]) :: rest
      else (k, g) :: addToGroups rest h

/-- The accumulated record the user-service mergeHoldings builds for a
multi-member group: head's identity fields, summed quantity/currentValue/
dayChange/totalPnL, recomputed averagePrice (guard: quantity > 0) and
dayChangePercent (guard: currentValue > 0 — note the guard is NOT on the
denominator currentValue − dayChange), lastUpdated = now, and the zero
values for the fields the Go literal leaves unset. -/
def mergedOfGroup (now : ℤ) (g : List Holding) (h0 : Holding) : Holding :=
  let qty := sumBy Holding.quantity g
  let cv := sumBy Holding.currentValue g
  let dc := sumBy Holding.dayChange g
  let pnl := sumBy Holding.totalPnL g
  { itemName := h0.itemName
    isin := h0.isin
    quantity := qty
    averagePrice := if 0 < qty then cv / qty else 0
    lastTradedPrice := 0
    currentValue := cv
    dayChange := dc
    dayChangePercent := if 0 < cv then (goDiv dc (cv - dc)).map (fun x => x * 100) else some 0
    totalPnL := pnl
    platform := h0.platform
    type' := h0.type'
    lastUpdated := now }

/-- mergeHoldings (user-service variant): group by `groupKey`; singleton
groups pass through unchanged, larger groups are accumulated by
`mergedOfGroup`. Groups are never empty; `filterMap` drops that
unreachable case. -/
def mergeHoldings (now : ℤ) (holdings : List Holding) : List Holding :=
  (holdings.foldl addToGroups []).filterMap fun g =>
    match g.2 with
    | [] => none
    | [h] => some h
    | h0 :: h1 :: rest => some (mergedOfGroup now (h0 :: h1 :: rest) h0)

end UserSvc

namespace AppCache

/-- cache.KeyPortfolio (internal/cache/cache.go:26): the single, constant,
user-independent portfolio cache key. -/
def KeyPortfolio : String := "portfolio"

/-- Cache.SetPortfolio (internal/cache/cache.go:33): stores under the constant key. -/
def SetPortfolio (c : List (String × Portfolio)) (p : Portfolio) : List (String × Portfolio) :=
  setAssoc c KeyPortfolio p

/-- Cache.GetPortfolio (internal/cache/cache.go:40): reads the constant key. -/
def GetPortfolio (c : List (String × Portfolio)) : Option Portfolio :=
  getAssoc c KeyPortfolio

end AppCache

/-- A broker client's two fetch capabilities (broker.Client /
types.Client), with the upstream outcome made explicit. -/
structure Client where
  getHoldings : Except String (List Holding)
  getPositions : Except String (List Holding)

namespace Svc

/-- portfolio.Service's mutable state (internal/portfolio/interface.go:34):
the shared app cache, the TTL, and lastRefreshTime. -/
structure State where
  cache : List (String × Portfolio)
  cacheTTL : ℤ
  lastRefreshTime : ℤ

/-- NewService (internal/portfolio/interface.go:52): lastRefreshTime is
initialized to the construction time, not to a sentinel. -/
def NewService (now : ℤ) (cache : List (String × Portfolio)) (cacheTTL : ℤ) : State :=
  { cache := cache, cacheTTL := cacheTTL, lastRefreshTime := now }

/-- fetchZerodhaHoldings (interface.go:198): nil client or upstream error
contribute an empty list; the error is carried alongside (and only logged). -/
def fetchZerodhaHoldings (zerodhaClient : Option Client) : List Holding × Option String :=
  match zerodhaClient with
  | none => ([], none)
  | some c =>
      match c.getHoldings with
      | .ok hs => (hs, none)
      | .error e => ([], some ("failed to fetch Zerodha holdings: " ++ e))

/-- fetchZerodhaPositions (interface.go:211). -/
def fetchZerodhaPositions (zerodhaClient : Option Client) : List Holding × Option String :=
  match zerodhaClient with
  | none => ([], none)
  | some c =>
      match c.getPositions with
      | .ok hs => (hs, none)
      | .error e => ([], some ("failed to fetch Zerodha positions: " ++ e))

/-- fetchICICIHoldings (interface.go:224). -/
def fetchICICIHoldings (iciciClient : Option Client) : List Holding × Option String :=
  match iciciClient with
  | none => ([], none)
  | some c =>
      match c.getHoldings with
      | .ok hs => (hs, none)
      | .error e => ([], some ("failed to fetch ICICI holdings: " ++ e))

/-- fetchICICIPositions (interface.go:237). -/
def fetchICICIPositions (iciciClient : Option Client) : List Holding × Option String :=
  match iciciClient with
  | none => ([], none)
  | some c =>
      match c.getPositions with
      | .ok hs => (hs, none)
      | .error e => ([], some ("failed to fetch ICICI positions: " ++ e))

/-- The snapshot RefreshPortfolio (interface.go:111) builds: merged holdings,
totals accumulated over them, guarded day-change percentage, stamped now. -/
def refreshedPortfolio (now : ℤ) (zerodhaClient iciciClient : Option Client) : Portfolio :=
  let allHoldings := mergeHoldings
    [(fetchZerodhaHoldings zerodhaClient).1,
     (fetchZerodhaPositions zerodhaClient).1,
     (fetchICICIHoldings iciciClient).1,
     (fetchICICIPositions iciciClient).1]
  let tv := allHoldings.foldl (fun acc h => acc + h.currentValue) 0
  let tdc := allHoldings.foldl (fun acc h => acc + h.dayChange) 0
  let tpnl := allHoldings.foldl (fun acc h => acc + h.totalPnL) 0
  { holdings := allHoldings
    totalValue := tv
    totalDayChange := tdc
    totalDayChangePct := if 0 < tv then tdc / tv * 100 else 0
    totalPnL := tpnl
    lastUpdated := now }

/-- RefreshPortfolio (interface.go:111): fetch errors are only logged; the
snapshot is written to the cache; lastRefreshTime is stamped; the returned
error is always nil (`none`) — the cache write cannot fail. -/
def RefreshPortfolio (now : ℤ) (zerodhaClient iciciClient : Option Client) (s : State) :
    State × Option String :=
  ({ s with
      cache := AppCache.SetPortfolio s.cache (refreshedPortfolio now zerodhaClient iciciClient)
      lastRefreshTime := now }, none)

/-- The cache-read-and-filter tail of GetPortfolio (interface.go:75-107). -/
def readPortfolio (holdingType : String) (s : State) : Except String Portfolio :=
  match AppCache.GetPortfolio s.cache with
  | none => .error "portfolio not found in cache"
  | some portfolio =>
      if holdingType ≠ "" ∧ holdingType ≠ "all" then
        let fhs := portfolio.holdings.filter (fun h => h.type' = holdingType)
        let tv := fhs.foldl (fun acc h => acc + h.currentValue) 0
        let tdc := fhs.foldl (fun acc h => acc + h.dayChange) 0
        let tpnl := fhs.foldl (fun acc h => acc + h.totalPnL) 0
        .ok { holdings := fhs
              totalValue := tv
              totalDayChange := tdc
              totalDayChangePct := if 0 < tv then tdc / tv * 100 else 0
              totalPnL := tpnl
              lastUpdated := portfolio.lastUpdated }
      else .ok portfolio

/-- GetPortfolio (interface.go:63): refresh when forced or stale, then read
the cached snapshot, filtering by holding type on request. The Bool result
records whether a refresh (and hence any broker fetch call) happened. -/
def GetPortfolio (now : ℤ) (forceRefresh : Bool) (holdingType : String)
    (zerodhaClient iciciClient : Option Client) (s : State) :
    Except String Portfolio × State × Bool :=
  let needsRefresh := forceRefresh || decide (s.cacheTTL < now - s.lastRefreshTime)
  if needsRefresh then
    match RefreshPortfolio now zerodhaClient iciciClient s with
    | (s', some e) => (.error e, s', true)
    | (s', none) => (readPortfolio holdingType s', s', true)
  else
    (readPortfolio holdingType s, s, false)

end Svc

namespace UserSvc

/-- The per-user holdings store behind portfolio.PortfolioRepository
(SaveHoldings/GetHoldings/GetHoldingsByType), keyed by userID. `saveFails`
models the database write failing (PersistenceFailure). -/
structure Repo where
  store : List (String × List Holding)
  saveFails : Bool

/-- PortfolioRepository.GetHoldings: a user with no saved rows reads as an
empty list. -/
def Repo.GetHoldings (r : Repo) (userID : String) : Except String (List Holding) :=
  .ok ((getAssoc r.store userID).getD [])

/-- PortfolioRepository.GetHoldingsByType: the user's rows restricted to one
holding type. -/
def Repo.GetHoldingsByType (r : Repo) (userID holdingType : String) :
    Except String (List Holding) :=
  .ok (((getAssoc r.store userID).getD []).filter (fun h => h.type' = holdingType))

/-- PortfolioRepository.SaveHoldings: replaces the user's rows; fails iff the
database write fails. -/
def Repo.SaveHoldings (r : Repo) (userID : String) (hs : List Holding) :
    Except String Repo :=
  if r.saveFails then .error "failed to save holdings"
  else .ok { r with store := setAssoc r.store userID hs }

/-- One broker's contribution inside UserService.RefreshPortfolio
(config.go concatenation): skip a missing client; on a successful call stamp
every record's platform and lastUpdated; on error contribute nothing. -/
def contribution (c : Option Client) (call : Client → Except String (List Holding))
    (platform : String) (now : ℤ) : List Holding :=
  match c with
  | none => []
  | some cl =>
      match call cl with
      | .error _ => []
      | .ok hs => hs.map (fun h => { h with platform := platform, lastUpdated := now })

/-- UserService.RefreshPortfolio: gather both calls of both brokers (failed
calls contribute empty lists), merge, and save; only the save can fail.
`zerodhaClient`/`iciciClient` are the results of BrokerManager.GetClient. -/
def RefreshPortfolio (now : ℤ) (userID : String)
    (zerodhaClient iciciClient : Option Client) (r : Repo) : Except String Repo :=
  let allHoldings :=
    contribution zerodhaClient Client.getHoldings PlatformZerodha now ++
    contribution zerodhaClient Client.getPositions PlatformZerodha now ++
    contribution iciciClient Client.getHoldings PlatformICICIDirect now ++
    contribution iciciClient Client.getPositions PlatformICICIDirect now
  r.SaveHoldings userID (mergeHoldings now allHoldings)

/-- The read-and-total tail of UserService.GetPortfolio (config.go
concatenation): an empty read yields the zero portfolio rather than an
error; otherwise totals are accumulated and the percentage guarded. -/
def readPortfolio (now : ℤ) (userID holdingType : String) (r : Repo) :
    Except String Portfolio :=
  let read :=
    if holdingType ≠ "" ∧ holdingType ≠ "all" then r.GetHoldingsByType userID holdingType
    else r.GetHoldings userID
  match read with
  | .error e => .error e
  | .ok holdings =>
      if holdings = [] then
        .ok { holdings := []
              totalValue := 0
              totalDayChange := 0
              totalDayChangePct := 0
              totalPnL := 0
              lastUpdated := now }
      else
        let tv := holdings.foldl (fun acc h => acc + h.currentValue) 0
        let tdc := holdings.foldl (fun acc h => acc + h.dayChange) 0
        let tpnl := holdings.foldl (fun acc h => acc + h.totalPnL) 0
        .ok { holdings := holdings
              totalValue := tv
              totalDayChange := tdc
              totalDayChangePct := if 0 < tv then tdc / tv * 100 else 0
              totalPnL := tpnl
              lastUpdated := now }

/-- UserService.GetPortfolio: refresh only when forced, then read the user's
rows from the repository and total them. -/
def GetPortfolio (now : ℤ) (userID : String) (forceRefresh : Bool) (holdingType : String)
    (zerodhaClient iciciClient : Option Client) (r : Repo) :
    Except String Portfolio × Repo :=
  if forceRefresh then
    match RefreshPortfolio now userID zerodhaClient iciciClient r with
    | .error e => (.error e, r)
    | .ok r' => (readPortfolio now userID holdingType r', r')
  else
    (readPortfolio now userID holdingType r, r)

end UserSvc

/-- Nanoseconds per hour: Go durations are int64 nanosecond counts. -/
def nsPerHour : ℤ := 3600 * 1000000000

namespace Zerodha

/-- zerodha.Client's session state (internal/broker/zerodha/client.go,
types.Client variant). -/
structure Client where
  apiKey : String
  apiSecret : String
  requestToken : String
  accessToken : String
  refreshToken : String
  expiresAt : ℤ
deriving DecidableEq, Repr

/-- zerodha.NewClient (client.go:188). -/
def NewClient (apiKey apiSecret requestToken : String) : Client :=
  { apiKey := apiKey, apiSecret := apiSecret, requestToken := requestToken
    accessToken := "", refreshToken := "", expiresAt := 0 }

/-- zerodha.Client.Login (client.go:199): `session` is the outcome of the
vendor GenerateSession call (access token, refresh token); on success the
in-memory expiry becomes now + 24h. -/
def Login (now : ℤ) (session : Except String (String × String)) (c : Client) :
    Except String Client :=
  match session with
  | .error e => .error e
  | .ok (accessToken, refreshToken) =>
      .ok { c with accessToken := accessToken, refreshToken := refreshToken
                   expiresAt := now + 24 * nsPerHour }

end Zerodha

namespace ICICI

/-- icici_direct.Client's session state (internal/broker/icici_direct/client.go). -/
structure Client where
  apiKey : String
  apiSecret : String
  requestToken : String
  accessToken : String
  refreshToken : String
  expiresAt : ℤ
deriving DecidableEq, Repr

/-- icici_direct.NewClient (client.go:29). -/
def NewClient (apiKey apiSecret requestToken : String) : Client :=
  { apiKey := apiKey, apiSecret := apiSecret, requestToken := requestToken
    accessToken := "", refreshToken := "", expiresAt := 0 }

/-- icici_direct.Client.Login (client.go:40): rejects empty request token or
secret; `customerDetails` is the outcome of the vendor GetCustomerDetails
call (the session token); on success the in-memory expiry becomes now + 12h. -/
def Login (now : ℤ) (customerDetails : Except String String) (c : Client) :
    Except String Client :=
  if c.requestToken = "" ∨ c.apiSecret = "" then
    .error "invalid request token or api secret"
  else
    match customerDetails with
    | .error e => .error e
    | .ok sessionToken =>
        .ok { c with accessToken := sessionToken, expiresAt := now + 12 * nsPerHour }

end ICICI

namespace Mgr

/-- broker.ClientTypeZerodha (manager.go:316). -/
def ClientTypeZerodha : String := "zerodha"

/-- broker.ClientTypeICICIDirect (manager.go:318). -/
def ClientTypeICICIDirect : String := "icici_direct"

/-- cache.KeyZerodhaToken (internal/cache/cache.go:28). -/
def KeyZerodhaToken : String := "zerodha_token"

/-- cache.KeyICICIToken (internal/cache/cache.go:29). -/
def KeyICICIToken : String := "icici_token"

/-- broker.ClientCredentials (manager.go:322). -/
structure ClientCredentials where
  apiKey : String
  apiSecret : String
  requestToken : String
  password : String
  userID : String
deriving DecidableEq, Repr

/-- The credential row SaveCredentials persists for a (userID, brokerType)
pair: the identifying fields, the token argument, and the expiry argument. -/
structure CredRecord where
  apiKey : String
  apiSecret : String
  accessToken : String
  tokenExpiry : ℤ
deriving DecidableEq, Repr

/-- BrokerManager's storage-visible state: the credential store (one row per
(userID, brokerType)), the token cache (key → token and TTL), and the
configured client max age (24h at the cmd/server/main.go wiring). -/
structure State where
  creds : List ((String × String) × CredRecord)
  tokenCache : List (String × (String × ℤ))
  maxAge : ℤ
deriving DecidableEq, Repr

/-- Modelled from the spec: the CredentialsRepository.SaveCredentials overload
CreateClient calls (six arguments, ending in a token and an expiry time) has
no implementation in the snapshot; per the spec's CredentialStore contract it
upserts the single credential row of the (userID, brokerType) pair. -/
def SaveCredentials (m : State) (userID brokerType apiKey apiSecret token : String)
    (expiry : ℤ) : State :=
  let record : CredRecord :=
    { apiKey := apiKey, apiSecret := apiSecret, accessToken := token, tokenExpiry := expiry }
  { m with creds := setAssoc m.creds (userID, brokerType) record }

/-- Cache.Set on the token cache: the entry keeps the TTL it was stored with. -/
def cacheSet (m : State) (key token : String) (ttl : ℤ) : State :=
  { m with tokenCache := setAssoc m.tokenCache key (token, ttl) }

/-- The result of CreateClient: a freshly constructed broker client of the
requested variant. -/
inductive ClientObj
  | zerodha (c : Zerodha.Client)
  | icici (c : ICICI.Client)
deriving DecidableEq, Repr

/-- BrokerManager.CreateClient (manager.go:357): build the variant's client;
when a request token is present, Login, then persist the credential with
expiry now + maxAge (the same maxAge for BOTH variants) and mirror the
client's access token into the cache under `<tokenKey>:<userID>` with TTL
maxAge. On login failure return the error having written nothing. The vendor
call outcomes (`zerodhaSession`, `iciciCustomerDetails`) are passed in. -/
def CreateClient (now : ℤ) (clientType : String) (creds : ClientCredentials)
    (zerodhaSession : Except String (String × String))
    (iciciCustomerDetails : Except String String)
    (m : State) : Except String ClientObj × State :=
  if clientType = ClientTypeZerodha then
    let client := Zerodha.NewClient creds.apiKey creds.apiSecret creds.requestToken
    if creds.requestToken ≠ "" then
      match Zerodha.Login now zerodhaSession client with
      | .error e => (.error ("failed to login to Zerodha: " ++ e), m)
      | .ok client =>
          let m := SaveCredentials m creds.userID ClientTypeZerodha creds.apiKey
            creds.apiSecret creds.requestToken (now + m.maxAge)
          let m := cacheSet m (KeyZerodhaToken ++ ":" ++ creds.userID)
            client.accessToken m.maxAge
          (.ok (.zerodha client), m)
    else (.ok (.zerodha client), m)
  else if clientType = ClientTypeICICIDirect then
    let client := ICICI.NewClient creds.apiKey creds.apiSecret creds.requestToken
    if creds.requestToken ≠ "" then
      match ICICI.Login now iciciCustomerDetails client with
      | .error e => (.error ("failed to login to ICICI Direct: " ++ e), m)
      | .ok client =>
          let m := SaveCredentials m creds.userID ClientTypeICICIDirect creds.apiKey
            creds.apiSecret creds.requestToken (now + m.maxAge)
          let m := cacheSet m (KeyICICIToken ++ ":" ++ creds.userID)
            client.accessToken m.maxAge
          (.ok (.icici client), m)
    else (.ok (.icici client), m)
  else (.error ("unknown client type: " ++ clientType), m)

end Mgr

/-- Concrete INFY holding at Zerodha (quantity 10, currentValue 11000),
mirroring the repository's own test data. -/
def exZ1 : Holding :=
  { itemName := "INFY", isin := "INE009A01021", quantity := 10, averagePrice := 1000
    lastTradedPrice := 1100, currentValue := 11000, dayChange := 100
    dayChangePercent := some 1, totalPnL := 1000, platform := "zerodha"
    type' := "stock", lastUpdated := 100 }

/-- Second INFY lot at the same platform (quantity 5, currentValue 5500),
updated later. -/
def exZ2 : Holding :=
  { itemName := "INFY", isin := "INE009A01021", quantity := 5, averagePrice := 1000
    lastTradedPrice := 1100, currentValue := 5500, dayChange := 50
    dayChangePercent := some 1, totalPnL := 500, platform := "zerodha"
    type' := "stock", lastUpdated := 200 }

/-- The same security held at ICICI Direct (different platform, same ISIN),
updated later than `exZ1`. -/
def exI2 : Holding :=
  { itemName := "Infosys", isin := "INE009A01021", quantity := 5, averagePrice := 1000
    lastTradedPrice := 1100, currentValue := 5500, dayChange := 50
    dayChangePercent := some 1, totalPnL := 500, platform := "icici_direct"
    type' := "stock", lastUpdated := 200 }

/-- A holding whose whole currentValue is its dayChange (60 = 60). -/
def exD1 : Holding :=
  { itemName := "TCS", isin := "INE467B01029", quantity := 3, averagePrice := 20
    lastTradedPrice := 20, currentValue := 60, dayChange := 60
    dayChangePercent := some 0, totalPnL := 0, platform := "zerodha"
    type' := "stock", lastUpdated := 10 }

/-- A second lot of the same security, also with currentValue = dayChange. -/
def exD2 : Holding :=
  { itemName := "TCS", isin := "INE467B01029", quantity := 2, averagePrice := 20
    lastTradedPrice := 20, currentValue := 40, dayChange := 40
    dayChangePercent := some 0, totalPnL := 0, platform := "zerodha"
    type' := "stock", lastUpdated := 20 }

/-- A broker client whose both calls fail upstream. -/
def failingClient : Client :=
  { getHoldings := .error "connection reset", getPositions := .error "gateway timeout" }

/-- A broker client that returns one holding and no positions. -/
def okClient : Client :=
  { getHoldings := .ok [exI2], getPositions := .ok [] }

/-- A user-service repository with no rows and a healthy database. -/
def repoEx : UserSvc.Repo := { store := [], saveFails := false }

/-- The all-zero empty portfolio snapshot. -/
def pEmptyEx : Portfolio :=
  { holdings := [], totalValue := 0, totalDayChange := 0, totalDayChangePct := 0
    totalPnL := 0, lastUpdated := 5 }

/-- An aggregate-service state whose cache holds the empty snapshot and whose
TTL has not yet elapsed at time 10. -/
def svcStateEx : Svc.State :=
  { cache := [(AppCache.KeyPortfolio, pEmptyEx)], cacheTTL := 100, lastRefreshTime := 0 }

/-- A broker-manager state wired like cmd/server/main.go: maxAge = 24h. -/
def mgrEx : Mgr.State := { creds := [], tokenCache := [], maxAge := 24 * nsPerHour }

/-- Concrete connect credentials carrying a request token. -/
def credsEx : Mgr.ClientCredentials :=
  { apiKey := "key", apiSecret := "secret", requestToken := "rtok", password := ""
    userID := "alice" }

/-- The spec's Portfolio invariant: each stored total is within 1e-6 of the
corresponding sum over the holdings. -/
def totalsWithinEps (p : Portfolio) : Prop :=
  |p.totalValue - sumBy Holding.currentValue p.holdings| ≤ 1 / 1000000 ∧
  |p.totalDayChange - sumBy Holding.dayChange p.holdings| ≤ 1 / 1000000 ∧
  |p.totalPnL - sumBy Holding.totalPnL p.holdings| ≤ 1 / 1000000

lemma foldl_add_eq_sumBy (f : Holding → ℚ) (l : List Holding) :
    ∀ a : ℚ, l.foldl (fun acc h => acc + f h) a = a + sumBy f l := by
  induction l with
  | nil => intro a; simp [sumBy]
  | cons h t ih => intro a; simp [sumBy, List.foldl_cons, ih, add_assoc]

lemma getAssoc_setAssoc_self {κ α : Type} [DecidableEq κ]
    (m : List (κ × α)) (k : κ) (v : α) : getAssoc (setAssoc m k v) k = some v := by
  induction m with
  | nil => simp [setAssoc, getAssoc]
  | cons kv rest ih =>
      by_cases hk : kv.1 = k
      · simp [setAssoc, getAssoc, hk]
      · simpa [setAssoc, getAssoc, hk] using ih

lemma exact_totals_withinEps {p : Portfolio}
    (h1 : p.totalValue = sumBy Holding.currentValue p.holdings)
    (h2 : p.totalDayChange = sumBy Holding.dayChange p.holdings)
    (h3 : p.totalPnL = sumBy Holding.totalPnL p.holdings) :
    totalsWithinEps p := by
  refine ⟨?_, ?_, ?_⟩ <;> simp [h1, h2, h3]

/-- The snapshot RefreshPortfolio builds carries exact totals. -/
lemma Svc.refreshedPortfolio_totals (now : ℤ) (zc ic : Option Client) :
    (Svc.refreshedPortfolio now zc ic).totalValue
        = sumBy Holding.currentValue (Svc.refreshedPortfolio now zc ic).holdings ∧
    (Svc.refreshedPortfolio now zc ic).totalDayChange
        = sumBy Holding.dayChange (Svc.refreshedPortfolio now zc ic).holdings ∧
    (Svc.refreshedPortfolio now zc ic).totalPnL
        = sumBy Holding.totalPnL (Svc.refreshedPortfolio now zc ic).holdings := by
  refine ⟨?_, ?_, ?_⟩ <;> simp [Svc.refreshedPortfolio, foldl_add_eq_sumBy]

/-- Whatever readPortfolio returns satisfies the epsilon invariant, provided
the cached snapshot (if any) does. -/
lemma svcReadPortfolio_withinEps (holdingType : String) (s : Svc.State)
    (hcache : ∀ q, AppCache.GetPortfolio s.cache = some q → totalsWithinEps q) :
    ∀ p, Svc.readPortfolio holdingType s = .ok p → totalsWithinEps p := by
  intro p hp
  unfold Svc.readPortfolio at hp
  cases hq : AppCache.GetPortfolio s.cache with
  | none => rw [hq] at hp; exact absurd hp (by simp)
  | some q =>
      rw [hq] at hp
      by_cases hft : holdingType ≠ "" ∧ holdingType ≠ "all"
      · simp only [if_pos hft, Except.ok.injEq] at hp
        subst hp
        exact exact_totals_withinEps (by simp [foldl_add_eq_sumBy])
          (by simp [foldl_add_eq_sumBy]) (by simp [foldl_add_eq_sumBy])
      · simp only [if_neg hft, Except.ok.injEq] at hp
        subst hp
        exact hcache q hq

/-- Merging two one-element lists whose holdings collide on the dedup key
reduces to mergeTwoHoldings. -/
lemma svcMergeHoldings_pair (a b : Holding) (hk : Svc.holdingKey a = Svc.holdingKey b) :
    Svc.mergeHoldings [[a], [b]] = [Svc.mergeTwoHoldings a b] := by
  simp [Svc.mergeHoldings, Svc.insertHolding, hk]

/-- Grouping two holdings that collide on the group key reduces to one
accumulated record. -/
lemma userMergeHoldings_pair (now : ℤ) (a b : Holding)
    (hk : UserSvc.groupKey a = UserSvc.groupKey b) :
    UserSvc.mergeHoldings now [a, b] = [UserSvc.mergedOfGroup now [a, b] a] := by
  simp [UserSvc.mergeHoldings, UserSvc.addToGroups, hk]

/-- Every portfolio the user-service read path returns carries totals within
epsilon of the sums over its holdings. -/
lemma userReadPortfolio_withinEps (now : ℤ) (userID holdingType : String)
    (r : UserSvc.Repo) :
    ∀ p, UserSvc.readPortfolio now userID holdingType r = .ok p → totalsWithinEps p := by
  intro p hp
  unfold UserSvc.readPortfolio at hp
  set read := if holdingType ≠ "" ∧ holdingType ≠ "all"
    then r.GetHoldingsByType userID holdingType else r.GetHoldings userID with hread
  have hok : ∃ hs, read = .ok hs := by
    by_cases hft : holdingType ≠ "" ∧ holdingType ≠ "all" <;>
      simp [hread, hft, UserSvc.Repo.GetHoldingsByType, UserSvc.Repo.GetHoldings]
  obtain ⟨hs, hhs⟩ := hok
  rw [hhs] at hp
  simp only at hp
  by_cases hnil : hs = []
  · simp [hnil] at hp
    subst hp
    exact exact_totals_withinEps (by simp [sumBy]) (by simp [sumBy]) (by simp [sumBy])
  · simp [hnil] at hp
    subst hp
    exact exact_totals_withinEps (by simp [foldl_add_eq_sumBy])
      (by simp [foldl_add_eq_sumBy]) (by simp [foldl_add_eq_sumBy])

/-- Claim C9: on a freshly constructed aggregate Service whose cache holds no
snapshot, GetPortfolio with forceRefresh = false before the TTL has elapsed
since construction performs no refresh (hence no broker fetch call) and
returns the error "portfolio not found in cache" instead of a Portfolio,
because lastRefreshTime starts at the construction time. -/
theorem fresh_service_get_returns_not_found
    (t0 cacheTTL now : ℤ) (cache : List (String × Portfolio))
    (zc ic : Option Client) (holdingType : String)
    (hempty : AppCache.GetPortfolio cache = none)
    (hfresh : now - t0 ≤ cacheTTL) :
    Svc.GetPortfolio now false holdingType zc ic (Svc.NewService t0 cache cacheTTL)
      = (.error "portfolio not found in cache", Svc.NewService t0 cache cacheTTL, false) := by
  have hnr : ¬ (cacheTTL < now - t0) := not_lt.mpr hfresh
  simp [Svc.GetPortfolio, Svc.NewService, Svc.readPortfolio, hnr, hempty]

/-- Witness for C9 at a concrete fresh service. -/
theorem fresh_service_get_returns_not_found_witness :
    Svc.GetPortfolio 10 false "" none none (Svc.NewService 0 [] 100)
      = (.error "portfolio not found in cache", Svc.NewService 0 [] 100, false) :=
  fresh_service_get_returns_not_found 0 100 10 [] none none ""
    (by simp [AppCache.GetPortfolio, getAssoc]) (by norm_num)

/-- Claim C10: for a user whose holdings store is empty, the user-service
GetPortfolio with forceRefresh = false returns the empty portfolio (empty
holdings, all totals zero) and no error, rather than a not-found error. -/
theorem empty_holdings_empty_portfolio
    (now : ℤ) (userID holdingType : String) (zc ic : Option Client) (r : UserSvc.Repo)
    (hempty : (getAssoc r.store userID).getD [] = []) :
    (UserSvc.GetPortfolio now userID false holdingType zc ic r).1
      = .ok { holdings := [], totalValue := 0, totalDayChange := 0
              totalDayChangePct := 0, totalPnL := 0, lastUpdated := now } := by
  by_cases hft : holdingType ≠ "" ∧ holdingType ≠ "all" <;>
    simp [UserSvc.GetPortfolio, UserSvc.readPortfolio, hft,
      UserSvc.Repo.GetHoldingsByType, UserSvc.Repo.GetHoldings, hempty]

/-- Witness for C10 at a concrete empty repository. -/
theorem empty_holdings_empty_portfolio_witness :
    (UserSvc.GetPortfolio 7 "bob" false "" none none repoEx).1
      = .ok { holdings := [], totalValue := 0, totalDayChange := 0
              totalDayChangePct := 0, totalPnL := 0, lastUpdated := 7 } :=
  empty_holdings_empty_portfolio 7 "bob" "" none none repoEx rfl

/-- Claim C6: when the broker client's Login fails during CreateClient with a
request token, the call returns an error and the manager state — credential
store and token cache alike — is exactly what it was before the call. -/
theorem createClient_login_failure_persists_nothing
    (now : ℤ) (creds : Mgr.ClientCredentials) (m : Mgr.State) (e : String)
    (zsession : Except String (String × String)) (icd : Except String String)
    (hrt : creds.requestToken ≠ "") (hsec : creds.apiSecret ≠ "") :
    Mgr.CreateClient now Mgr.ClientTypeZerodha creds (.error e) icd m
        = (.error ("failed to login to Zerodha: " ++ e), m) ∧
    Mgr.CreateClient now Mgr.ClientTypeICICIDirect creds zsession (.error e) m
        = (.error ("failed to login to ICICI Direct: " ++ e), m) := by
  constructor
  · simp [Mgr.CreateClient, Mgr.ClientTypeZerodha, Zerodha.Login, Zerodha.NewClient, hrt]
  · simp [Mgr.CreateClient, Mgr.ClientTypeICICIDirect, Mgr.ClientTypeZerodha,
      ICICI.Login, ICICI.NewClient, hrt, hsec]

/-- Witness for C6 at concrete credentials and a failing vendor login. -/
theorem createClient_login_failure_persists_nothing_witness :
    Mgr.CreateClient 0 Mgr.ClientTypeZerodha credsEx (.error "bad token") (.error "bad token") mgrEx
        = (.error ("failed to login to Zerodha: " ++ "bad token"), mgrEx) ∧
    Mgr.CreateClient 0 Mgr.ClientTypeICICIDirect credsEx (.error "bad token") (.error "bad token") mgrEx
        = (.error ("failed to login to ICICI Direct: " ++ "bad token"), mgrEx) :=
  createClient_login_failure_persists_nothing 0 credsEx mgrEx "bad token"
    (.error "bad token") (.error "bad token") (by decide) (by decide)

/-- Claim C7 (code bug): the portfolio snapshot cache is NOT keyed per user —
cache.KeyPortfolio is the constant "portfolio", so SetPortfolio is
user-independent, a second stored snapshot globally overwrites the first,
and the aggregate service's refresh writes through that single shared key. -/
theorem portfolio_cache_single_global_key :
    (∀ (c : List (String × Portfolio)) (pA pB : Portfolio),
      AppCache.GetPortfolio (AppCache.SetPortfolio (AppCache.SetPortfolio c pA) pB)
        = some pB) ∧
    (∀ (now : ℤ) (zc ic : Option Client) (s : Svc.State),
      AppCache.GetPortfolio ((Svc.RefreshPortfolio now zc ic s).1.cache)
        = some (Svc.refreshedPortfolio now zc ic)) := by
  constructor
  · intro c pA pB
    exact getAssoc_setAssoc_self (setAssoc c AppCache.KeyPortfolio pA) AppCache.KeyPortfolio pB
  · intro now zc ic s
    exact getAssoc_setAssoc_self s.cache AppCache.KeyPortfolio (Svc.refreshedPortfolio now zc ic)

/-- Claim C1: every Portfolio GetPortfolio returns satisfies the totals
invariant within 1e-6 — (i) every snapshot RefreshPortfolio caches satisfies
it, (ii) for the aggregate service, both the unfiltered and the type-filtered
result satisfy it whenever the cached snapshot does (which (i) guarantees for
every snapshot the program writes), and (iii) for the per-user service every
returned portfolio satisfies it unconditionally. -/
theorem portfolio_totals_match_holdings :
    (∀ (now : ℤ) (zc ic : Option Client) (s : Svc.State) (q : Portfolio),
      AppCache.GetPortfolio ((Svc.RefreshPortfolio now zc ic s).1.cache) = some q →
      totalsWithinEps q) ∧
    (∀ (now : ℤ) (forceRefresh : Bool) (holdingType : String) (zc ic : Option Client)
        (s : Svc.State),
      (∀ q, AppCache.GetPortfolio s.cache = some q → totalsWithinEps q) →
      ∀ p, (Svc.GetPortfolio now forceRefresh holdingType zc ic s).1 = .ok p →
        totalsWithinEps p) ∧
    (∀ (now : ℤ) (userID : String) (forceRefresh : Bool) (holdingType : String)
        (zc ic : Option Client) (r : UserSvc.Repo) (p : Portfolio),
      (UserSvc.GetPortfolio now userID forceRefresh holdingType zc ic r).1 = .ok p →
      totalsWithinEps p) := by
  have hrefresh : ∀ (now : ℤ) (zc ic : Option Client) (s : Svc.State) (q : Portfolio),
      AppCache.GetPortfolio ((Svc.RefreshPortfolio now zc ic s).1.cache) = some q →
      totalsWithinEps q := by
    intro now zc ic s q hq
    have hget : AppCache.GetPortfolio ((Svc.RefreshPortfolio now zc ic s).1.cache)
        = some (Svc.refreshedPortfolio now zc ic) :=
      getAssoc_setAssoc_self s.cache AppCache.KeyPortfolio (Svc.refreshedPortfolio now zc ic)
    rw [hget] at hq
    obtain ⟨h1, h2, h3⟩ := Svc.refreshedPortfolio_totals now zc ic
    exact (Option.some.injEq _ _ ▸ hq) ▸ exact_totals_withinEps h1 h2 h3
  refine ⟨hrefresh, ?_, ?_⟩
  · intro now forceRefresh holdingType zc ic s hcache p hp
    unfold Svc.GetPortfolio at hp
    by_cases hb : (forceRefresh || decide (s.cacheTTL < now - s.lastRefreshTime)) = true
    · rw [if_pos hb] at hp
      simp only [Svc.RefreshPortfolio] at hp
      refine svcReadPortfolio_withinEps holdingType _ ?_ p hp
      intro q hq
      exact hrefresh now zc ic s q hq
    · rw [if_neg hb] at hp
      exact svcReadPortfolio_withinEps holdingType s hcache p hp
  · intro now userID forceRefresh holdingType zc ic r p hp
    unfold UserSvc.GetPortfolio at hp
    by_cases hf : forceRefresh = true
    · rw [if_pos hf] at hp
      cases hr : UserSvc.RefreshPortfolio now userID zc ic r with
      | error e => rw [hr] at hp; exact absurd hp (by simp)
      | ok r' =>
          rw [hr] at hp
          exact userReadPortfolio_withinEps now userID holdingType r' p hp
    · rw [if_neg hf] at hp
      exact userReadPortfolio_withinEps now userID holdingType r p hp

/-- Witness for C1: all three parts applied at concrete states. -/
theorem portfolio_totals_match_holdings_witness :
    totalsWithinEps (Svc.refreshedPortfolio 3 none none) ∧
    totalsWithinEps pEmptyEx ∧
    totalsWithinEps { holdings := [], totalValue := 0, totalDayChange := 0
                      totalDayChangePct := 0, totalPnL := 0, lastUpdated := 7 } := by
  refine ⟨?_, ?_, ?_⟩
  · exact portfolio_totals_match_holdings.1 3 none none (Svc.NewService 0 [] 0) _
      (getAssoc_setAssoc_self [] AppCache.KeyPortfolio (Svc.refreshedPortfolio 3 none none))
  · refine portfolio_totals_match_holdings.2.1 10 false "" none none svcStateEx ?_ pEmptyEx rfl
    intro q hq
    simp [AppCache.GetPortfolio, svcStateEx, getAssoc] at hq
    subst hq
    exact exact_totals_withinEps (by simp [pEmptyEx, sumBy])
      (by simp [pEmptyEx, sumBy]) (by simp [pEmptyEx, sumBy])
  · exact portfolio_totals_match_holdings.2.2 7 "bob" false "" none none repoEx _ rfl

/-- Claim C4: a broker whose calls fail is isolated — (i) the aggregate
service's refresh still reports no error and caches a snapshot holding
exactly the merge of the successful broker's lists with two empty
contributions for the failed calls, (ii) the per-user refresh succeeds and
stores exactly the merge of the successful broker's stamped lists, and
(iii) the per-user refresh errors only when the persistence write fails. -/
theorem refresh_isolates_broker_failures :
    (∀ (now : ℤ) (s : Svc.State) (zcl icl : Client) (e1 e2 : String)
        (ih ip : List Holding),
      zcl.getHoldings = .error e1 → zcl.getPositions = .error e2 →
      icl.getHoldings = .ok ih → icl.getPositions = .ok ip →
      (Svc.RefreshPortfolio now (some zcl) (some icl) s).2 = none ∧
      AppCache.GetPortfolio ((Svc.RefreshPortfolio now (some zcl) (some icl) s).1.cache)
        = some (Svc.refreshedPortfolio now (some zcl) (some icl)) ∧
      (Svc.refreshedPortfolio now (some zcl) (some icl)).holdings
        = Svc.mergeHoldings [[], [], ih, ip]) ∧
    (∀ (now : ℤ) (userID : String) (zcl icl : Client) (e1 e2 : String)
        (ih ip : List Holding) (r : UserSvc.Repo),
      r.saveFails = false →
      zcl.getHoldings = .error e1 → zcl.getPositions = .error e2 →
      icl.getHoldings = .ok ih → icl.getPositions = .ok ip →
      UserSvc.RefreshPortfolio now userID (some zcl) (some icl) r
        = .ok { r with store := setAssoc r.store userID (UserSvc.mergeHoldings now
            (ih.map (fun h => { h with platform := PlatformICICIDirect, lastUpdated := now }) ++
             ip.map (fun h => { h with platform := PlatformICICIDirect, lastUpdated := now }))) }) ∧
    (∀ (now : ℤ) (userID : String) (zc ic : Option Client) (r : UserSvc.Repo) (e : String),
      UserSvc.RefreshPortfolio now userID zc ic r = .error e → r.saveFails = true) := by
  refine ⟨?_, ?_, ?_⟩
  · intro now s zcl icl e1 e2 ih ip hz1 hz2 hi1 hi2
    refine ⟨rfl, getAssoc_setAssoc_self s.cache AppCache.KeyPortfolio _, ?_⟩
    simp [Svc.refreshedPortfolio, Svc.fetchZerodhaHoldings, Svc.fetchZerodhaPositions,
      Svc.fetchICICIHoldings, Svc.fetchICICIPositions, hz1, hz2, hi1, hi2]
  · intro now userID zcl icl e1 e2 ih ip r hsave hz1 hz2 hi1 hi2
    simp [UserSvc.RefreshPortfolio, UserSvc.contribution, UserSvc.Repo.SaveHoldings,
      hsave, hz1, hz2, hi1, hi2]
  · intro now userID zc ic r e hr
    by_contra hsave
    have hsave' : r.saveFails = false := by
      cases h : r.saveFails with
      | true => exact absurd h hsave
      | false => rfl
    simp [UserSvc.RefreshPortfolio, UserSvc.Repo.SaveHoldings, hsave'] at hr

/-- Witness for C4: a failing Zerodha client next to a succeeding ICICI
client, at a concrete state. -/
theorem refresh_isolates_broker_failures_witness :
    ((Svc.RefreshPortfolio 100 (some failingClient) (some okClient) svcStateEx).2 = none ∧
     AppCache.GetPortfolio
        ((Svc.RefreshPortfolio 100 (some failingClient) (some okClient) svcStateEx).1.cache)
       = some (Svc.refreshedPortfolio 100 (some failingClient) (some okClient)) ∧
     (Svc.refreshedPortfolio 100 (some failingClient) (some okClient)).holdings
       = Svc.mergeHoldings [[], [], [exI2], []]) ∧
    UserSvc.RefreshPortfolio 100 "alice" (some failingClient) (some okClient) repoEx
      = .ok { repoEx with store := setAssoc repoEx.store "alice" (UserSvc.mergeHoldings 100
          ([exI2].map (fun h => { h with platform := PlatformICICIDirect, lastUpdated := (100 : ℤ) }) ++
           ([] : List Holding).map (fun h => { h with platform := PlatformICICIDirect, lastUpdated := (100 : ℤ) }))) } :=
  ⟨refresh_isolates_broker_failures.1 100 svcStateEx failingClient okClient
      "connection reset" "gateway timeout" [exI2] [] rfl rfl rfl rfl,
   refresh_isolates_broker_failures.2.1 100 "alice" failingClient okClient
      "connection reset" "gateway timeout" [exI2] [] repoEx rfl rfl rfl rfl rfl⟩

/-- Claim C2 counterexample: for two holdings sharing a non-empty ISIN from
different platforms, the user-service merge does NOT return the
more-recently-updated record unchanged — it sums the pair (quantity 10 + 5
= 15), so the claim fails on this merge implementation. -/
theorem userMerge_sums_cross_platform_pair :
    exZ1.isin = exI2.isin ∧ exZ1.isin ≠ "" ∧ exZ1.platform ≠ exI2.platform ∧
    exZ1.lastUpdated < exI2.lastUpdated ∧
    (UserSvc.mergeHoldings 300 [exZ1, exI2]).map Holding.quantity = [15] ∧
    UserSvc.mergeHoldings 300 [exZ1, exI2] ≠ [exI2] := by
  have hk : UserSvc.groupKey exZ1 = UserSvc.groupKey exI2 := by
    simp [UserSvc.groupKey, exZ1, exI2]
  have hmap : (UserSvc.mergeHoldings 300 [exZ1, exI2]).map Holding.quantity = [15] := by
    rw [userMergeHoldings_pair 300 exZ1 exI2 hk]
    norm_num [UserSvc.mergedOfGroup, sumBy, exZ1, exI2]
  refine ⟨rfl, by simp [exZ1], by simp [exZ1, exI2], by decide, hmap, ?_⟩
  intro hco
  rw [hco] at hmap
  norm_num [exI2] at hmap

/-- Claim C2 amended: it is the AGGREGATE service's merge (interface.go's
mergeHoldings/mergeTwoHoldings) that yields exactly the more-recently-updated
input record, field-for-field unchanged, for a cross-platform ISIN collision;
the user-service merge sums the pair instead (see the counterexample). -/
theorem svcMerge_picks_more_recent_cross_platform
    (a b : Holding) (hisin : a.isin ≠ "") (heq : b.isin = a.isin)
    (hplat : a.platform ≠ b.platform) :
    (a.lastUpdated < b.lastUpdated → Svc.mergeHoldings [[a], [b]] = [b]) ∧
    (b.lastUpdated < a.lastUpdated → Svc.mergeHoldings [[a], [b]] = [a]) := by
  have hbne : b.isin ≠ "" := by rw [heq]; exact hisin
  have hk : Svc.holdingKey a = Svc.holdingKey b := by
    simp [Svc.holdingKey, hisin, hbne, heq]
  rw [svcMergeHoldings_pair a b hk]
  constructor
  · intro hlt
    simp [Svc.mergeTwoHoldings, not_lt.mpr (le_of_lt hlt)]
  · intro hlt
    simp [Svc.mergeTwoHoldings, hlt]

/-- Witness for the amended C2 at the concrete cross-platform pair. -/
theorem svcMerge_picks_more_recent_cross_platform_witness :
    Svc.mergeHoldings [[exZ1], [exI2]] = [exI2] :=
  (svcMerge_picks_more_recent_cross_platform exZ1 exI2 (by simp [exZ1]) rfl
    (by simp [exZ1, exI2])).1 (by decide)

/-- Claim C3 counterexample: for the same-platform pair with quantities 10
and 5 and currentValues 11000 and 5500, the aggregate service's merge does
NOT produce quantity 15 — it keeps only the more recent record (quantity 5),
so the claim fails on this merge implementation. -/
theorem svcMerge_same_platform_not_summed :
    exZ1.platform = exZ2.platform ∧ exZ1.isin = exZ2.isin ∧ exZ1.isin ≠ "" ∧
    exZ1.quantity = 10 ∧ exZ2.quantity = 5 ∧
    exZ1.currentValue = 11000 ∧ exZ2.currentValue = 5500 ∧
    (Svc.mergeHoldings [[exZ1], [exZ2]]).map Holding.quantity = [5] ∧
    (Svc.mergeHoldings [[exZ1], [exZ2]]).map Holding.quantity ≠ [15] := by
  have hk : Svc.holdingKey exZ1 = Svc.holdingKey exZ2 := by
    simp [Svc.holdingKey, exZ1, exZ2]
  have hmap : (Svc.mergeHoldings [[exZ1], [exZ2]]).map Holding.quantity = [5] := by
    rw [svcMergeHoldings_pair exZ1 exZ2 hk]
    simp [Svc.mergeTwoHoldings, exZ1, exZ2]
  refine ⟨rfl, rfl, by simp [exZ1], rfl, rfl, rfl, rfl, hmap, ?_⟩
  rw [hmap]
  intro hco
  norm_num at hco

/-- Claim C3 amended: it is the USER-SERVICE merge that accumulates a
same-platform (indeed any same-key) pair: with quantities 10 and 5 and
currentValues 11000 and 5500 it produces one holding with quantity 15,
currentValue 16500 and averagePrice 16500 / 15 = 1100; the aggregate
service's merge instead keeps only the more recent record. -/
theorem userMerge_same_platform_accumulates
    (now : ℤ) (h1 h2 : Holding) (hisin : h1.isin ≠ "") (heq : h2.isin = h1.isin)
    (hplat : h2.platform = h1.platform)
    (hq1 : h1.quantity = 10) (hq2 : h2.quantity = 5)
    (hv1 : h1.currentValue = 11000) (hv2 : h2.currentValue = 5500) :
    (UserSvc.mergeHoldings now [h1, h2]).map
        (fun m => (m.quantity, m.currentValue, m.averagePrice))
      = [(15, 16500, 1100)] := by
  have h2ne : h2.isin ≠ "" := by rw [heq]; exact hisin
  have hk : UserSvc.groupKey h1 = UserSvc.groupKey h2 := by
    simp [UserSvc.groupKey, hisin, h2ne, heq]
  rw [userMergeHoldings_pair now h1 h2 hk]
  norm_num [UserSvc.mergedOfGroup, sumBy, hq1, hq2, hv1, hv2]

/-- Witness for the amended C3 at the concrete same-platform pair. -/
theorem userMerge_same_platform_accumulates_witness :
    (UserSvc.mergeHoldings 300 [exZ1, exZ2]).map
        (fun m => (m.quantity, m.currentValue, m.averagePrice))
      = [(15, 16500, 1100)] :=
  userMerge_same_platform_accumulates 300 exZ1 exZ2 (by simp [exZ1]) rfl rfl
    rfl rfl rfl rfl

/-- Claim C8 counterexample: a merged group whose summed currentValue equals
its summed dayChange (both 100) passes the code's currentValue > 0 guard and
divides by the zero denominator: the resulting dayChangePercent is the
non-finite float (modeled `none`), not the 0 the claim requires. -/
theorem userMerge_zero_denominator_nonfinite :
    exD1.isin = exD2.isin ∧ exD1.isin ≠ "" ∧
    (0 : ℚ) < exD1.currentValue + exD2.currentValue ∧
    exD1.currentValue + exD2.currentValue - (exD1.dayChange + exD2.dayChange) = 0 ∧
    (UserSvc.mergeHoldings 50 [exD1, exD2]).map Holding.dayChangePercent = [none] ∧
    ([none] : List (Option ℚ)) ≠ [some 0] := by
  have hk : UserSvc.groupKey exD1 = UserSvc.groupKey exD2 := by
    simp [UserSvc.groupKey, exD1, exD2]
  refine ⟨rfl, by simp [exD1], by norm_num [exD1, exD2], by norm_num [exD1, exD2], ?_, by simp⟩
  rw [userMergeHoldings_pair 50 exD1 exD2 hk]
  norm_num [UserSvc.mergedOfGroup, sumBy, goDiv, exD1, exD2]

/-- Claim C8 amended: the user-service merge recomputes dayChangePercent as
dayChange / (currentValue − dayChange) × 100 whenever currentValue > 0 and
the denominator is non-zero, and leaves it 0 when currentValue ≤ 0; the
division is guarded on currentValue > 0, NOT on the denominator, so a merged
group with currentValue = dayChange > 0 produces a non-finite value. -/
theorem userMerge_dayChangePercent_guard
    (now : ℤ) (h1 h2 : Holding) (hk : UserSvc.groupKey h1 = UserSvc.groupKey h2) :
    (h1.currentValue + h2.currentValue ≤ 0 →
      (UserSvc.mergeHoldings now [h1, h2]).map Holding.dayChangePercent = [some 0]) ∧
    (0 < h1.currentValue + h2.currentValue →
      h1.currentValue + h2.currentValue - (h1.dayChange + h2.dayChange) = 0 →
      (UserSvc.mergeHoldings now [h1, h2]).map Holding.dayChangePercent = [none]) ∧
    (0 < h1.currentValue + h2.currentValue →
      h1.currentValue + h2.currentValue - (h1.dayChange + h2.dayChange) ≠ 0 →
      (UserSvc.mergeHoldings now [h1, h2]).map Holding.dayChangePercent
        = [some ((h1.dayChange + h2.dayChange) /
            (h1.currentValue + h2.currentValue - (h1.dayChange + h2.dayChange)) * 100)]) := by
  have hpair := userMergeHoldings_pair now h1 h2 hk
  refine ⟨?_, ?_, ?_⟩
  · intro hle
    rw [hpair]
    simp [UserSvc.mergedOfGroup, sumBy, not_lt.mpr hle]
  · intro hpos hden
    rw [hpair]
    simp [UserSvc.mergedOfGroup, sumBy, goDiv, hpos, hden]
  · intro hpos hden
    rw [hpair]
    simp [UserSvc.mergedOfGroup, sumBy, goDiv, hpos, hden]

/-- Witness for the amended C8: the zero-denominator branch at the concrete
group, applied through the theorem. -/
theorem userMerge_dayChangePercent_guard_witness :
    (UserSvc.mergeHoldings 60 [exD1, exD2]).map Holding.dayChangePercent = [none] :=
  (userMerge_dayChangePercent_guard 60 exD1 exD2
      (by simp [UserSvc.groupKey, exD1, exD2])).2.1
    (by norm_num [exD1, exD2]) (by norm_num [exD1, exD2])

/-- Claim C5 counterexample: with the manager wired as in cmd/server/main.go
(maxAge = 24h), a successful ICICI Direct CreateClient at time 0 persists a
credential whose tokenExpiry is 0 + 24h — not the 12 hours from now the
claim requires for the ICICIDirect variant. -/
theorem createClient_icici_expiry_not_12h :
    mgrEx.maxAge = 24 * nsPerHour ∧
    (getAssoc (Mgr.CreateClient 0 Mgr.ClientTypeICICIDirect credsEx
          (.error "unused") (.ok "stok") mgrEx).2.creds
        ("alice", Mgr.ClientTypeICICIDirect)).map Mgr.CredRecord.tokenExpiry
      = some (0 + 24 * nsPerHour) ∧
    (0 + 24 * nsPerHour : ℤ) ≠ 0 + 12 * nsPerHour := by
  refine ⟨rfl, ?_, by norm_num [nsPerHour]⟩
  simp [Mgr.CreateClient, Mgr.ClientTypeZerodha, Mgr.ClientTypeICICIDirect,
    ICICI.Login, ICICI.NewClient, Mgr.SaveCredentials, Mgr.cacheSet,
    credsEx, mgrEx, getAssoc_setAssoc_self, getAssoc, setAssoc]

/-- Claim C5 amended: for every successful CreateClient with a request token,
the PERSISTED credential's expiry is now + maxAge (the manager's single
configured client max age — 24h at the server wiring) for BOTH broker
variants, and the token mirrored into the cache carries TTL maxAge, matching
that stored expiry; the broker-specific expiries — 24h for Zerodha, 12h for
ICICI Direct — are set only on the returned in-memory client's expiresAt. -/
theorem createClient_persists_maxAge_expiry
    (now : ℤ) (creds : Mgr.ClientCredentials) (m : Mgr.State)
    (tok rtok stok : String) (zsess : Except String (String × String))
    (icd : Except String String)
    (hrt : creds.requestToken ≠ "") (hsec : creds.apiSecret ≠ "") :
    ((Mgr.CreateClient now Mgr.ClientTypeZerodha creds (.ok (tok, rtok)) icd m).1
        = .ok (.zerodha { apiKey := creds.apiKey, apiSecret := creds.apiSecret
                          requestToken := creds.requestToken, accessToken := tok
                          refreshToken := rtok, expiresAt := now + 24 * nsPerHour }) ∧
     (getAssoc (Mgr.CreateClient now Mgr.ClientTypeZerodha creds
            (.ok (tok, rtok)) icd m).2.creds
          (creds.userID, Mgr.ClientTypeZerodha)).map Mgr.CredRecord.tokenExpiry
        = some (now + m.maxAge) ∧
     (getAssoc (Mgr.CreateClient now Mgr.ClientTypeZerodha creds
            (.ok (tok, rtok)) icd m).2.tokenCache
          (Mgr.KeyZerodhaToken ++ ":" ++ creds.userID)).map Prod.snd
        = some m.maxAge) ∧
    ((Mgr.CreateClient now Mgr.ClientTypeICICIDirect creds zsess (.ok stok) m).1
        = .ok (.icici { apiKey := creds.apiKey, apiSecret := creds.apiSecret
                        requestToken := creds.requestToken, accessToken := stok
                        refreshToken := "", expiresAt := now + 12 * nsPerHour }) ∧
     (getAssoc (Mgr.CreateClient now Mgr.ClientTypeICICIDirect creds
            zsess (.ok stok) m).2.creds
          (creds.userID, Mgr.ClientTypeICICIDirect)).map Mgr.CredRecord.tokenExpiry
        = some (now + m.maxAge) ∧
     (getAssoc (Mgr.CreateClient now Mgr.ClientTypeICICIDirect creds
            zsess (.ok stok) m).2.tokenCache
          (Mgr.KeyICICIToken ++ ":" ++ creds.userID)).map Prod.snd
        = some m.maxAge) := by
  constructor
  · refine ⟨?_, ?_, ?_⟩ <;>
      simp [Mgr.CreateClient, Mgr.ClientTypeZerodha, Zerodha.Login, Zerodha.NewClient,
        Mgr.SaveCredentials, Mgr.cacheSet, hrt, getAssoc_setAssoc_self]
  · refine ⟨?_, ?_, ?_⟩ <;>
      simp [Mgr.CreateClient, Mgr.ClientTypeZerodha, Mgr.ClientTypeICICIDirect,
        ICICI.Login, ICICI.NewClient, Mgr.SaveCredentials, Mgr.cacheSet,
        hrt, hsec, getAssoc_setAssoc_self]

/-- Witness for the amended C5 at concrete credentials and vendor responses. -/
theorem createClient_persists_maxAge_expiry_witness :
    ((Mgr.CreateClient 0 Mgr.ClientTypeZerodha credsEx (.ok ("tok", "rtok"))
          (.error "unused") mgrEx).1
        = .ok (.zerodha { apiKey := credsEx.apiKey, apiSecret := credsEx.apiSecret
                          requestToken := credsEx.requestToken, accessToken := "tok"
                          refreshToken := "rtok", expiresAt := 0 + 24 * nsPerHour }) ∧
     (getAssoc (Mgr.CreateClient 0 Mgr.ClientTypeZerodha credsEx
            (.ok ("tok", "rtok")) (.error "unused") mgrEx).2.creds
          (credsEx.userID, Mgr.ClientTypeZerodha)).map Mgr.CredRecord.tokenExpiry
        = some (0 + mgrEx.maxAge) ∧
     (getAssoc (Mgr.CreateClient 0 Mgr.ClientTypeZerodha credsEx
            (.ok ("tok", "rtok")) (.error "unused") mgrEx).2.tokenCache
          (Mgr.KeyZerodhaToken ++ ":" ++ credsEx.userID)).map Prod.snd
        = some mgrEx.maxAge) ∧
    ((Mgr.CreateClient 0 Mgr.ClientTypeICICIDirect credsEx (.error "unused")
          (.ok "stok") mgrEx).1
        = .ok (.icici { apiKey := credsEx.apiKey, apiSecret := credsEx.apiSecret
                        requestToken := credsEx.requestToken, accessToken := "stok"
                        refreshToken := "", expiresAt := 0 + 12 * nsPerHour }) ∧
     (getAssoc (Mgr.CreateClient 0 Mgr.ClientTypeICICIDirect credsEx
            (.error "unused") (.ok "stok") mgrEx).2.creds
          (credsEx.userID, Mgr.ClientTypeICICIDirect)).map Mgr.CredRecord.tokenExpiry
        = some (0 + mgrEx.maxAge) ∧
     (getAssoc (Mgr.CreateClient 0 Mgr.ClientTypeICICIDirect credsEx
            (.error "unused") (.ok "stok") mgrEx).2.tokenCache
          (Mgr.KeyICICIToken ++ ":" ++ credsEx.userID)).map Prod.snd
        = some mgrEx.maxAge) :=
  createClient_persists_maxAge_expiry 0 credsEx mgrEx "tok" "rtok" "stok"
    (.error "unused") (.error "unused") (by decide) (by decide)
